import Mathlib

/-!
Verification of the `fsapi` Frontier Silicon client library
(`src/fsapi/__init__.py`) against its natural-language specification.

The Python code is shallowly embedded: the HTTP transport is an explicit
function (`Device`) from a URL and query parameters to a transport result,
XML documents are an inductive tree type, Python exceptions become an
`Except PyError` result, and Python `dict`s become association lists with
last-write-wins insertion (`dictSet`).
-/

namespace FSAPI

/-- Scalar parameter / record values (`DataItem = Union[str, int]` in the
source). -/
inductive DataItem where
  | s (v : String)
  | i (v : Int)
deriving DecidableEq, Repr

/-- A parsed XML element, as produced by `xml.etree.ElementTree`:
a tag, an attribute map, optional text (`None` for an element such as
`<b/>` with no text) and the list of child elements. -/
inductive Element where
  | mk (tag : String) (attrib : List (String × String))
       (text : Option String) (children : List Element)

def Element.tag : Element → String
  | .mk t _ _ _ => t

def Element.attrib : Element → List (String × String)
  | .mk _ a _ _ => a

def Element.text : Element → Option String
  | .mk _ _ tx _ => tx

def Element.children : Element → List Element
  | .mk _ _ _ c => c

/-- The exceptions the library can raise, by the Python exception class
used at the corresponding `raise` site (or raised by the runtime). -/
inductive PyError where
  | timeoutError          -- TimeoutError (get_fsapi_endpoint)
  | connectionError       -- ConnectionError (get_fsapi_endpoint)
  | connectionRefusedError -- ConnectionRefusedError (endpoint not found)
  | runtimeError          -- RuntimeError ("FSAPI not successfully initialised.")
  | requestsTimeout       -- requests.exceptions.Timeout escaping `call`
  | requestsException     -- other requests.exceptions.RequestException escaping `call`
  | permissionError       -- PermissionError (HTTP 403)
  | notImplementedError   -- NotImplementedError (FS_NODE_DOES_NOT_EXIST)
  | elementPathError      -- SyntaxError from xml.etree.ElementPath
  | valueError            -- ValueError from int(...)
  | keyError              -- KeyError from dict[...]
deriving DecidableEq, Repr

/-- Python truthiness of an `Optional[str]`: `None` and `""` are falsy. -/
def strTruthy : Option String → Bool
  | none => false
  | some s => s != ""

/-- Python truthiness of an `ET.Element`: an element is truthy iff it has
child elements (`Element.__bool__` is `len(self) != 0`). -/
def elemTruthy (e : Element) : Bool :=
  !e.children.isEmpty

/-- Python `str(x)` applied to an `Optional[str]`: `str(None)` is the
four-character string `"None"`. -/
def pyStrOpt : Option String → String
  | none => "None"
  | some s => s

/-- `str` applied to an `Optional[DataItem]` (used by the `mode` getter,
where the scanned value may be a string, an integer or `None`). -/
def pyStrValue : Option DataItem → String
  | none => "None"
  | some (.s v) => v
  | some (.i v) => toString v

/- ### Python `dict` as an insertion-ordered association list -/

/-- `d[k] = v` on a Python dict: replace the value in place if the key is
present, append otherwise. -/
def dictSet {V : Type} (d : List (String × V)) (k : String) (v : V) :
    List (String × V) :=
  if d.any (fun p => p.1 == k) then
    d.map (fun p => if p.1 == k then (k, v) else p)
  else d ++ [(k, v)]

/-- `d.update(kvs)` on a Python dict: later entries overwrite earlier ones
(last write wins). -/
def dictUpdate {V : Type} (d : List (String × V)) (kvs : List (String × V)) :
    List (String × V) :=
  kvs.foldl (fun acc p => dictSet acc p.1 p.2) d

/-- `dict(pairs)`: build a dict from a list of pairs, later duplicates
overwriting earlier ones. -/
def dictFromPairs {V : Type} (ps : List (String × V)) : List (String × V) :=
  dictUpdate [] ps

/-- `d.get(k)` / `k in d` style lookup. -/
def dictGet? {V : Type} (d : List (String × V)) (k : String) : Option V :=
  (d.find? (fun p => p.1 == k)).map (·.2)

/-- `d[k]` on a Python dict: raises `KeyError` when the key is absent. -/
def dictGetE {V : Type} (d : List (String × V)) (k : String) :
    Except PyError V :=
  match dictGet? d k with
  | some v => .ok v
  | none => .error .keyError

/-- `'k' in e.attrib` / `e.attrib['k']` combined: look an attribute up
(attribute keys are unique in a parsed element). -/
def attribGet (e : Element) (k : String) : Option String :=
  (e.attrib.find? (fun p => p.1 == k)).map (·.2)

/- ### `ElementTree.find` for the tag paths this library uses

`xml.etree.ElementPath` first turns a trailing `/` into `/*`, then raises
`SyntaxError` for a path starting with `/` ("cannot use absolute path on
element"), and otherwise chains one child-selection step per `/`-separated
segment, in document order; `find` returns the first element selected by
the whole chain.  This model covers plain tag segments and the `*`
wildcard (which selects all children); the other XPath operators
(`.`, `..`, `//`, `[...]`, `@attr`), which this library never uses, are
outside its scope. -/

/-- `String.splitOn "/"` at the character-list level. -/
def splitSlash : List Char → List (List Char)
  | [] => [[]]
  | c :: rest =>
    let r := splitSlash rest
    if c = '/' then [] :: r
    else
      match r with
      | [] => [[c]]
      | s :: ss => (c :: s) :: ss

/-- ElementPath's fixup `if path[-1:] == "/": path += "*"`. -/
def fixPath (p : List Char) : List Char :=
  if p.getLast? = some '/' then p ++ ['*'] else p

/-- ElementPath's check `path[:1] == "/"` (absolute path ⇒ SyntaxError). -/
def isAbsolute (p : List Char) : Bool :=
  p.head? = some '/'

/-- One child-selection step of the path: `*` selects all children,
a tag selects the children with that tag, each applied to every context
node in order. -/
def selectSeg (ctx : List Element) (seg : List Char) : List Element :=
  if seg = ['*'] then ctx.flatMap Element.children
  else ctx.flatMap (fun e => e.children.filter (fun c => c.tag.data == seg))

/-- All elements selected by a (already fixed-up, relative) path. -/
def findallCore (root : Element) (p : List Char) : List Element :=
  (splitSlash p).foldl selectSeg [root]

/-- `root.findall(path)`, including the fixups and the absolute-path
`SyntaxError`. -/
def elemFindall (root : Element) (path : String) :
    Except PyError (List Element) :=
  let p := fixPath path.data
  if isAbsolute p then .error .elementPathError
  else .ok (findallCore root p)

/-- `root.find(path)`: first selected element, or `None`. -/
def elemFind (root : Element) (path : String) :
    Except PyError (Option Element) :=
  (elemFindall root path).map List.head?

/- ### The library itself -/

/-- `FSAPI.unpack_xml`:
```python
if root:
    element = root.find(key)
    if hasattr(element, "text"):
        return str(element.text)
return None
```
`if root:` is Python truthiness (absent root, or a root with no
children, short-circuits to `None`); `hasattr(element, "text")` is true
exactly when `find` returned an element; `str(element.text)` renders a
missing text as the string `"None"`. -/
def unpack_xml (root : Option Element) (key : String) :
    Except PyError (Option String) :=
  match root with
  | none => .ok none
  | some r =>
    if elemTruthy r then
      match elemFind r key with
      | .error e => .error e
      | .ok (some element) => .ok (some (pyStrOpt element.text))
      | .ok none => .ok none
    else .ok none

/-- Exception-free value of `unpack_xml` (total; agrees with `unpack_xml`
whenever the fixed-up path is not absolute, see `unpack_xml_ok`). -/
def unpackCore (root : Option Element) (key : String) : Option String :=
  match root with
  | none => none
  | some r =>
    if elemTruthy r then
      ((findallCore r (fixPath key.data)).head?).map
        (fun e => pyStrOpt e.text)
    else none

theorem unpack_xml_ok (root : Option Element) (key : String)
    (h : isAbsolute (fixPath key.data) = false) :
    unpack_xml root key = .ok (unpackCore root key) := by
  cases root with
  | none => rfl
  | some r =>
    simp only [unpack_xml, unpackCore, elemFind, elemFindall, h]
    by_cases ht : elemTruthy r
    · simp only [ht, if_true, Bool.false_eq_true, if_false, Except.map]
      cases (findallCore r (fixPath key.data)).head? <;> simp
    · simp [ht]

/- ### Python `int(...)` on the decimal strings the devices send -/

def digit? (c : Char) : Option Nat :=
  if '0' ≤ c ∧ c ≤ '9' then some (c.toNat - '0'.toNat) else none

def isPySpace (c : Char) : Bool :=
  c = ' ' || c = '\t' || c = '\n' || c = '\r'

def digitsToNat : List Char → Nat → Option Nat
  | [], acc => some acc
  | c :: rest, acc =>
    match digit? c with
    | some d => digitsToNat rest (acc * 10 + d)
    | none => none

/-- Python `int(s)` on a string: optional surrounding ASCII whitespace, an
optional sign, then a nonempty run of decimal digits; everything else
raises `ValueError` (modeled as `none`).  (Python also accepts `_` digit
separators and non-ASCII digits; the devices never send those, and no
theorem below depends on such inputs.) -/
def pyInt (s : String) : Option Int :=
  let cs := ((s.data.dropWhile isPySpace).reverse.dropWhile isPySpace).reverse
  match cs with
  | [] => none
  | '-' :: rest =>
    if rest = [] then none
    else (digitsToNat rest 0).map (fun n => -(n : Int))
  | '+' :: rest =>
    if rest = [] then none
    else (digitsToNat rest 0).map (fun n => (n : Int))
  | rest => (digitsToNat rest 0).map (fun n => (n : Int))

/- ### Client state and transport -/

/-- The mutable state of an `FSAPI` instance after construction: the PIN,
the session id (`self.sid`) and the resolved endpoint (`self.webfsapi`).
The advertisement URL and the timeout are threaded explicitly where used;
the timeout only influences which `TransportResult` the transport
produces. -/
structure FS where
  pin : String
  sid : Option String
  webfsapi : Option String

/-- Outcome of one `requests.get`: a timeout, another transport error, or
an HTTP response with a status code and an (already XML-parsed) body. -/
inductive TransportResult where
  | timeout
  | requestException
  | response (status_code : Nat) (content : Element)

/-- The HTTP transport: a function from request URL and query parameters
to a transport outcome.  This is the collaborator `requests.get`. -/
abbrev Device : Type := String → List (String × DataItem) → TransportResult

/-- The query-parameter map `FSAPI.call` builds:
```python
params: Dict[str, DataItem] = dict(pin=self.pin)
if self.sid:
    params.update(sid=self.sid)
if extra is not None:
    params.update(**extra)
```
`dict.update` is last-write-wins, so caller-supplied `extra` entries with
keys `pin` or `sid` replace the reserved entries. -/
def callParams (pin : String) (sid : Option String)
    (extra : Option (List (String × DataItem))) : List (String × DataItem) :=
  let params : List (String × DataItem) := [("pin", DataItem.s pin)]
  let params :=
    match sid with
    | some s => if s = "" then params else dictSet params "sid" (DataItem.s s)
    | none => params
  match extra with
  | some e => dictUpdate params e
  | none => params

/-- `FSAPI.call`: raise `RuntimeError` if `self.webfsapi` is falsy; build
the parameters; issue the GET to `'%s/%s' % (self.webfsapi, path)`;
HTTP 403 raises `PermissionError`, HTTP 404 returns `None`; otherwise
parse the body, and on XML status `FS_NODE_DOES_NOT_EXIST` raise
`NotImplementedError`, on `FS_OK` return the document, and on anything
else (including a missing status) return `None`. -/
def call (fs : FS) (dev : Device) (path : String)
    (extra : Option (List (String × DataItem))) :
    Except PyError (Option Element) :=
  if strTruthy fs.webfsapi then
    match dev (fs.webfsapi.getD "" ++ "/" ++ path)
              (callParams fs.pin fs.sid extra) with
    | .timeout => .error .requestsTimeout
    | .requestException => .error .requestsException
    | .response code content =>
      if code = 403 then .error .permissionError
      else if code = 404 then .ok none
      else
        match unpack_xml (some content) "status" with
        | .error e => .error e
        | .ok status =>
          if status = some "FS_NODE_DOES_NOT_EXIST" then
            .error .notImplementedError
          else if status = some "FS_OK" then .ok (some content)
          else .ok none
  else .error .runtimeError

/-- `FSAPI.get_fsapi_endpoint`: GET the advertisement URL (no query
parameters), turning a transport timeout into `TimeoutError` and any
other transport error into `ConnectionError`; parse the body, locate
`webfsapi`, and return its text if the element exists and its text is
truthy, else raise `ConnectionRefusedError`. -/
def get_fsapi_endpoint (dev : Device) (fsapi_device_url : String) :
    Except PyError String :=
  match dev fsapi_device_url [] with
  | .timeout => .error .timeoutError
  | .requestException => .error .connectionError
  | .response _ content =>
    match elemFind content "webfsapi" with
    | .error e => .error e
    | .ok (some api) =>
      match api.text with
      | some t => if t = "" then .error .connectionRefusedError else .ok t
      | none => .error .connectionRefusedError
    | .ok none => .error .connectionRefusedError

/-- `FSAPI.create_session`: `unpack_xml(call('CREATE_SESSION'), "sessionId")`. -/
def create_session (fs : FS) (dev : Device) :
    Except PyError (Option String) :=
  match call fs dev "CREATE_SESSION" none with
  | .error e => .error e
  | .ok doc => unpack_xml doc "sessionId"

/-- `FSAPI.__init__`: store the PIN with `sid = None`, resolve the
endpoint, then `self.sid = self.create_session()` — whatever
`create_session` returns (including `None`) is stored, and construction
completes. -/
def fsapiInit (dev : Device) (fsapi_device_url pin : String) :
    Except PyError FS :=
  match get_fsapi_endpoint dev fsapi_device_url with
  | .error e => .error e
  | .ok webfsapi =>
    match create_session { pin := pin, sid := none, webfsapi := some webfsapi } dev with
    | .error e => .error e
    | .ok sid => .ok { pin := pin, sid := sid, webfsapi := some webfsapi }

/- ### Handlers -/

/-- `FSAPI.handle_get`: `call('GET/{item}')`. -/
def handle_get (fs : FS) (dev : Device) (item : String) :
    Except PyError (Option Element) :=
  call fs dev ("GET/" ++ item) none

/-- `FSAPI.handle_set`: unpack `status` from `call('SET/{item}',
dict(value=value))`; `None` stays `None`, otherwise compare with
`'FS_OK'`. -/
def handle_set (fs : FS) (dev : Device) (item : String) (value : DataItem) :
    Except PyError (Option Bool) :=
  match call fs dev ("SET/" ++ item) (some [("value", value)]) with
  | .error e => .error e
  | .ok doc =>
    match unpack_xml doc "status" with
    | .error e => .error e
    | .ok none => .ok none
    | .ok (some st) => .ok (some (st == "FS_OK"))

/-- `FSAPI.handle_text`: unpack `value/c8_array` from a GET. -/
def handle_text (fs : FS) (dev : Device) (item : String) :
    Except PyError (Option String) :=
  match handle_get fs dev item with
  | .error e => .error e
  | .ok doc => unpack_xml doc "value/c8_array"

/-- `FSAPI.handle_int`: unpack `value/u8` from a GET; `None` stays `None`;
otherwise `int(val) or None` — a value parsing to `0` becomes `None`. -/
def handle_int (fs : FS) (dev : Device) (item : String) :
    Except PyError (Option Int) :=
  match handle_get fs dev item with
  | .error e => .error e
  | .ok doc =>
    match unpack_xml doc "value/u8" with
    | .error e => .error e
    | .ok none => .ok none
    | .ok (some v) =>
      match pyInt v with
      | none => .error .valueError
      | some n => .ok (if n = 0 then none else some n)

/-- `FSAPI.handle_long`: as `handle_int` but over `value/u32`. -/
def handle_long (fs : FS) (dev : Device) (item : String) :
    Except PyError (Option Int) :=
  match handle_get fs dev item with
  | .error e => .error e
  | .ok doc =>
    match unpack_xml doc "value/u32" with
    | .error e => .error e
    | .ok none => .ok none
    | .ok (some v) =>
      match pyInt v with
      | none => .error .valueError
      | some n => .ok (if n = 0 then none else some n)

/-- A list record: a Python dict from field name to optional scalar. -/
abbrev Record : Type := List (String × Option DataItem)

/-- `handle_field` (inner function of `FSAPI.handle_list`): for a `field`
element with a `name` attribute, unpack `c8_array` and `u8`; if the `u8`
text is present return `(name, int(v))`, else `(name, c8_array text)`;
a field without a `name` attribute yields `("", None)`. -/
def handle_field (field : Element) : Except PyError (String × Option DataItem) :=
  match attribGet field "name" with
  | some id =>
    match unpack_xml (some field) "c8_array" with
    | .error e => .error e
    | .ok s =>
      match unpack_xml (some field) "u8" with
      | .error e => .error e
      | .ok (some vs) =>
        match pyInt vs with
        | none => .error .valueError
        | some n => .ok (id, some (.i n))
      | .ok none => .ok (id, s.map DataItem.s)
  | none => .ok ("", none)

/-- `handle_item` (inner function of `FSAPI.handle_list`):
`dict(map(handle_field, item.findall('field')))`, then copy the item's
`key` attribute (when present) into the record under `"key"`. -/
def handle_item (item : Element) : Except PyError Record :=
  match elemFindall item "field" with
  | .error e => .error e
  | .ok fields =>
    match fields.mapM handle_field with
    | .error e => .error e
    | .ok pairs =>
      let ret := dictFromPairs pairs
      match attribGet item "key" with
      | some k => .ok (dictSet ret "key" (some (DataItem.s k)))
      | none => .ok ret

/-- `FSAPI.handle_list`: call `LIST_GET_NEXT/{item}/` with cursor `-1`
and `maxItems=100`; an absent document or a non-`FS_OK` status yields `[]`;
otherwise map `handle_item` over the response's `item` elements. -/
def handle_list (fs : FS) (dev : Device) (item : String) :
    Except PyError (List Record) :=
  match call fs dev ("LIST_GET_NEXT/" ++ item ++ "/-1")
      (some [("maxItems", DataItem.i 100)]) with
  | .error e => .error e
  | .ok none => .ok []
  | .ok (some d) =>
    match unpack_xml (some d) "status" with
    | .error e => .error e
    | .ok status =>
      if status = some "FS_OK" then
        match elemFindall d "item" with
        | .error e => .error e
        | .ok items => items.mapM handle_item
      else .ok []

/- ### Properties -/

/-- `FSAPI.PLAY_STATES`: `{0: 'stopped', 1: 'unknown', 2: 'playing',
3: 'paused'}`. -/
def PLAY_STATES : List (Int × String) :=
  [(0, "stopped"), (1, "unknown"), (2, "playing"), (3, "paused")]

/-- `d.get(k)` on the integer-keyed `PLAY_STATES` dict, where the key is
an `Optional[int]` (`None` matches no key). -/
def playStatesGet (k : Option Int) : Option String :=
  match k with
  | none => none
  | some n => (PLAY_STATES.find? (fun p => p.1 == n)).map (·.2)

/-- `FSAPI.play_status`:
`self.PLAY_STATES.get(self.handle_int('netRemote.play.status'))`. -/
def play_status (fs : FS) (dev : Device) : Except PyError (Option String) :=
  match handle_int fs dev "netRemote.play.status" with
  | .error e => .error e
  | .ok status => .ok (playStatesGet status)

/-- One iteration of the `mode` getter's loop:
```python
if temp_mode['key'] == str(int_mode):
    mode = temp_mode['label']
```
`temp_mode['key']` raises `KeyError` when the record has no key; the
`==` against a string is `true` only for an equal string value. -/
def modeStep (target : String) (acc : Option DataItem) (r : Record) :
    Except PyError (Option DataItem) :=
  match dictGetE r "key" with
  | .error e => .error e
  | .ok k => if k = some (DataItem.s target) then dictGetE r "label" else .ok acc

/-- The `mode` property getter:
```python
mode = None
int_mode = self.handle_long('netRemote.sys.mode')
if int_mode is not None:
    for temp_mode in self.modes:
        if temp_mode['key'] == str(int_mode):
            mode = temp_mode['label']
return str(mode)
```
(The `modes` property is `handle_list('netRemote.sys.caps.validModes')`.) -/
def mode_get (fs : FS) (dev : Device) : Except PyError String :=
  match handle_long fs dev "netRemote.sys.mode" with
  | .error e => .error e
  | .ok none => .ok (pyStrValue none)
  | .ok (some m) =>
    match handle_list fs dev "netRemote.sys.caps.validModes" with
    | .error e => .error e
    | .ok modes =>
      match modes.foldlM (modeStep (toString m)) (none : Option DataItem) with
      | .error e => .error e
      | .ok mode => .ok (pyStrValue mode)

/- ### Dict lemmas -/

theorem find?_map_set_self {V : Type} (d : List (String × V)) (k : String)
    (v : V) (hd : d.any (fun p => p.1 == k) = true) :
    (d.map (fun p => if p.1 == k then (k, v) else p)).find?
        (fun p => p.1 == k) = some (k, v) := by
  induction d with
  | nil => simp at hd
  | cons p d ih =>
    rw [List.map_cons]
    by_cases h : p.1 = k
    · have hmap : (if p.1 == k then (k, v) else p) = (k, v) := by simp [h]
      rw [hmap, List.find?_cons_of_pos _ (by simp)]
    · have hmap : (if p.1 == k then (k, v) else p) = p := by simp [h]
      rw [hmap, List.find?_cons_of_neg _ (by simp [h])]
      apply ih
      rcases List.any_eq_true.mp hd with ⟨x, hx, hpx⟩
      rcases List.mem_cons.mp hx with rfl | hxd
      · exact absurd (by simpa using hpx) h
      · exact List.any_eq_true.mpr ⟨x, hxd, hpx⟩

theorem find?_map_set_ne {V : Type} (d : List (String × V)) (k' k : String)
    (v : V) (h : k' ≠ k) :
    (d.map (fun p => if p.1 == k' then (k', v) else p)).find?
        (fun p => p.1 == k) = d.find? (fun p => p.1 == k) := by
  induction d with
  | nil => rfl
  | cons p d ih =>
    rw [List.map_cons]
    by_cases hp : p.1 = k'
    · have hmap : (if p.1 == k' then (k', v) else p) = (k', v) := by simp [hp]
      have hk : ¬ p.1 = k := by rw [hp]; exact h
      rw [hmap, List.find?_cons_of_neg _ (by simp [h]),
          List.find?_cons_of_neg _ (by simp [hk])]
      exact ih
    · have hmap : (if p.1 == k' then (k', v) else p) = p := by simp [hp]
      rw [hmap]
      by_cases hk : p.1 = k
      · rw [List.find?_cons_of_pos _ (by simp [hk]),
            List.find?_cons_of_pos _ (by simp [hk])]
      · rw [List.find?_cons_of_neg _ (by simp [hk]),
            List.find?_cons_of_neg _ (by simp [hk])]
        exact ih

theorem dictGet?_set_self {V : Type} (d : List (String × V)) (k : String)
    (v : V) : dictGet? (dictSet d k v) k = some v := by
  unfold dictSet dictGet?
  by_cases hd : d.any (fun p => p.1 == k) = true
  · rw [if_pos hd, find?_map_set_self d k v hd]
    rfl
  · rw [if_neg hd, List.find?_append]
    have hnone : d.find? (fun p => p.1 == k) = none := by
      rw [List.find?_eq_none]
      intro x hx hpx
      exact hd (List.any_eq_true.mpr ⟨x, hx, hpx⟩)
    have hone : ([(k, v)].find? (fun p => p.1 == k)) = some (k, v) :=
      List.find?_cons_of_pos _ (by simp)
    rw [hnone, hone]
    rfl

theorem dictGet?_set_ne {V : Type} (d : List (String × V)) (k' k : String)
    (v : V) (h : k' ≠ k) :
    dictGet? (dictSet d k' v) k = dictGet? d k := by
  unfold dictSet dictGet?
  by_cases hd : d.any (fun p => p.1 == k') = true
  · rw [if_pos hd, find?_map_set_ne d k' k v h]
  · rw [if_neg hd, List.find?_append]
    have hone : ([(k', v)].find? (fun p => p.1 == k)) = none := by
      rw [List.find?_cons_of_neg _ (by simp [h])]
      rfl
    rw [hone]
    cases d.find? (fun p => p.1 == k) <;> rfl

theorem dictGet?_update_of_not_mem {V : Type} (d : List (String × V))
    (kvs : List (String × V)) (k : String) (h : ∀ p ∈ kvs, p.1 ≠ k) :
    dictGet? (dictUpdate d kvs) k = dictGet? d k := by
  induction kvs generalizing d with
  | nil => rfl
  | cons p kvs ih =>
    have hstep : dictUpdate d (p :: kvs) = dictUpdate (dictSet d p.1 p.2) kvs := by
      simp [dictUpdate]
    rw [hstep, ih (dictSet d p.1 p.2) (fun q hq => h q (List.mem_cons_of_mem _ hq)),
        dictGet?_set_ne d p.1 k p.2 (h p (List.mem_cons_self _ _))]

/- ### Claim C1 -/

/-- **C1, counterexample.**  The claim states that caller-supplied
`extra_params` can never override the reserved `pin`/`sid` entries of the
parameter map built by `FSAPI.call`.  It is false: `params.update(**extra)`
is last-write-wins, so a caller passing `extra = {"pin": "9999",
"sid": "FAKE"}` to a client whose PIN is `"1234"` and whose session id is
`"GOODSID"` produces a parameter map with `pin = "9999"` and
`sid = "FAKE"`. -/
theorem C1_counterexample :
    dictGet? (callParams "1234" (some "GOODSID")
        (some [("pin", DataItem.s "9999"), ("sid", DataItem.s "FAKE")])) "pin"
      = some (DataItem.s "9999")
    ∧ dictGet? (callParams "1234" (some "GOODSID")
        (some [("pin", DataItem.s "9999"), ("sid", DataItem.s "FAKE")])) "sid"
      = some (DataItem.s "FAKE")
    ∧ DataItem.s "9999" ≠ DataItem.s "1234"
    ∧ DataItem.s "FAKE" ≠ DataItem.s "GOODSID" :=
  ⟨rfl, rfl, by decide, by decide⟩

/-- **C1, amended.**  The parameter map built by `FSAPI.call` maps `pin`
to the client's PIN and, once a non-empty session id exists, maps `sid`
to that session id, *provided* the caller-supplied `extra_params` contain
neither key `pin` nor key `sid`; extras with those keys override the
reserved entries (last-write-wins `dict.update`). -/
theorem C1_amended (pin : String) (sid : Option String)
    (extra : List (String × DataItem))
    (hp : ∀ p ∈ extra, p.1 ≠ "pin") (hs : ∀ p ∈ extra, p.1 ≠ "sid") :
    (dictGet? (callParams pin sid (some extra)) "pin" = some (DataItem.s pin)
      ∧ dictGet? (callParams pin sid none) "pin" = some (DataItem.s pin))
    ∧ (∀ s, sid = some s → s ≠ "" →
        dictGet? (callParams pin sid (some extra)) "sid" = some (DataItem.s s)
          ∧ dictGet? (callParams pin sid none) "sid" = some (DataItem.s s)) := by
  have base_pin : dictGet? [("pin", DataItem.s pin)] "pin"
      = some (DataItem.s pin) := by simp [dictGet?, List.find?]
  constructor
  · constructor
    · show dictGet? (dictUpdate _ extra) "pin" = some (DataItem.s pin)
      rw [dictGet?_update_of_not_mem _ extra "pin" hp]
      cases sid with
      | none => exact base_pin
      | some s =>
        by_cases hse : s = ""
        · simp only [callParams, hse, if_true]
          exact base_pin
        · simp only [callParams, hse, if_false]
          rw [dictGet?_set_ne _ "sid" "pin" _ (by decide)]
          exact base_pin
    · cases sid with
      | none => exact base_pin
      | some s =>
        by_cases hse : s = ""
        · simp only [callParams, hse, if_true]
          exact base_pin
        · simp only [callParams, hse, if_false]
          rw [dictGet?_set_ne _ "sid" "pin" _ (by decide)]
          exact base_pin
  · intro s hsid hse
    subst hsid
    have base_sid :
        dictGet? (dictSet [("pin", DataItem.s pin)] "sid" (DataItem.s s)) "sid"
          = some (DataItem.s s) := dictGet?_set_self _ "sid" _
    constructor
    · show dictGet? (dictUpdate _ extra) "sid" = some (DataItem.s s)
      rw [dictGet?_update_of_not_mem _ extra "sid" hs]
      simp only [callParams, hse, if_false]
      exact base_sid
    · simp only [callParams, hse, if_false]
      exact base_sid

/-- **C1, witness.**  A concrete instantiation: with PIN `"1234"`,
session id `"SID77"` and an extras dict `{"value": 1}` free of the
reserved keys, the parameter map keeps `pin = "1234"` and
`sid = "SID77"`. -/
theorem C1_witness :
    dictGet? (callParams "1234" (some "SID77")
        (some [("value", DataItem.i 1)])) "pin" = some (DataItem.s "1234")
    ∧ dictGet? (callParams "1234" (some "SID77")
        (some [("value", DataItem.i 1)])) "sid" = some (DataItem.s "SID77") :=
  ⟨(C1_amended "1234" (some "SID77") [("value", DataItem.i 1)]
      (by decide) (by decide)).1.1,
   ((C1_amended "1234" (some "SID77") [("value", DataItem.i 1)]
      (by decide) (by decide)).2 "SID77" rfl (by decide)).1⟩

/- ### Claim C2 -/

/-- A device whose advertisement document resolves, but whose
`CREATE_SESSION` response is `FS_OK` with no `sessionId` element. -/
def devC2 : Device := fun url _ =>
  if url = "http://radio.local" then
    .response 200 (.mk "netRemoteroot" [] none
      [ .mk "webfsapi" [] (some "http://radio.local:80/fsapi") [] ])
  else if url = "http://radio.local:80/fsapi/CREATE_SESSION" then
    .response 200 (.mk "fsapiResponse" [] none
      [ .mk "status" [] (some "FS_OK") [] ])
  else
    .response 404 (.mk "fsapiResponse" [] none [])

/-- **C2, counterexample.**  The claim states that a `CREATE_SESSION`
response without a `sessionId` element makes construction fail with
SessionCreationFailed and that no session object with an absent session
identifier is observable.  It is false: against `devC2`, whose
CREATE_SESSION response has no `sessionId`, the constructor *succeeds*
and hands the caller a session whose `sid` is absent (the code has no
SessionCreationFailed at all; `create_session` just returns `None`). -/
theorem C2_counterexample :
    fsapiInit devC2 "http://radio.local" "1234"
      = .ok { pin := "1234", sid := none,
              webfsapi := some "http://radio.local:80/fsapi" } := rfl

/-- **C2, amended.**  Whenever endpoint resolution succeeds and the
`CREATE_SESSION` exchange yields no session id (`create_session` returns
`None`), construction nevertheless completes successfully and the
resulting session object carries an absent session identifier — the
partially-initialized session *is* observable to the caller. -/
theorem C2_amended (dev : Device) (url pin ep : String)
    (h1 : get_fsapi_endpoint dev url = .ok ep)
    (h2 : create_session { pin := pin, sid := none, webfsapi := some ep } dev
        = .ok none) :
    fsapiInit dev url pin
      = .ok { pin := pin, sid := none, webfsapi := some ep } := by
  simp only [fsapiInit, h1, h2]

/-- **C2, witness.**  `C2_amended` applied to the concrete device
`devC2` (with a different PIN than the counterexample). -/
theorem C2_witness :
    fsapiInit devC2 "http://radio.local" "5678"
      = .ok { pin := "5678", sid := none,
              webfsapi := some "http://radio.local:80/fsapi" } :=
  C2_amended devC2 "http://radio.local" "5678" "http://radio.local:80/fsapi"
    rfl rfl

/- ### Claim C3 -/

/-- **C3.**  For every invocation of `FSAPI.call` on an initialized
session (truthy `webfsapi`) whose transport returns an HTTP response:
a 403 raises `PermissionError` (AccessDenied), a 404 returns absent
without raising, and otherwise the XML `status` decides — absent
document handling per status `FS_NODE_DOES_NOT_EXIST` raises
`NotImplementedError`, `FS_OK` returns the parsed document, and any
other status (including an absent one) returns absent. -/
theorem C3_call_classification (fs : FS) (dev : Device) (path : String)
    (extra : Option (List (String × DataItem)))
    (hinit : strTruthy fs.webfsapi = true)
    (code : Nat) (content : Element)
    (hresp : dev (fs.webfsapi.getD "" ++ "/" ++ path)
        (callParams fs.pin fs.sid extra) = .response code content) :
    (code = 403 → call fs dev path extra = .error .permissionError)
    ∧ (code ≠ 403 → code = 404 → call fs dev path extra = .ok none)
    ∧ (code ≠ 403 → code ≠ 404 →
        ((unpackCore (some content) "status" = some "FS_NODE_DOES_NOT_EXIST"
            → call fs dev path extra = .error .notImplementedError)
          ∧ (unpackCore (some content) "status" = some "FS_OK"
            → call fs dev path extra = .ok (some content))
          ∧ (unpackCore (some content) "status" ≠ some "FS_NODE_DOES_NOT_EXIST"
            → unpackCore (some content) "status" ≠ some "FS_OK"
            → call fs dev path extra = .ok none))) := by
  have hstat : unpack_xml (some content) "status"
      = .ok (unpackCore (some content) "status") := unpack_xml_ok _ _ rfl
  refine ⟨fun h403 => ?_, fun h403 h404 => ?_,
    fun h403 h404 => ⟨fun hnode => ?_, fun hok => ?_, fun hnode hok => ?_⟩⟩
  · simp [call, hinit, hresp, h403]
  · simp [call, hinit, hresp, h403, h404]
  · simp [call, hinit, hresp, h403, h404, hstat, hnode]
  · simp [call, hinit, hresp, h403, h404, hstat, hok]
  · simp [call, hinit, hresp, h403, h404, hstat, hnode, hok]

/-- A client with a truthy endpoint and a device answering a `GET` with
an `FS_OK` document, used to witness `C3_call_classification`. -/
def devC3 : Device := fun url _ =>
  if url = "http://ep/GET/netRemote.sys.info.friendlyName" then
    .response 200 (.mk "fsapiResponse" [] none
      [ .mk "status" [] (some "FS_OK") []
      , .mk "value" [] none [ .mk "c8_array" [] (some "My Radio") [] ] ])
  else
    .response 404 (.mk "fsapiResponse" [] none [])

def fsC3 : FS := { pin := "1234", sid := some "SID9", webfsapi := some "http://ep" }

/-- **C3, witness.**  Concrete instantiation: an HTTP 200 response with
status `FS_OK` makes `call` return the parsed document. -/
theorem C3_witness :
    call fsC3 devC3 "GET/netRemote.sys.info.friendlyName" none
      = .ok (some (.mk "fsapiResponse" [] none
        [ .mk "status" [] (some "FS_OK") []
        , .mk "value" [] none [ .mk "c8_array" [] (some "My Radio") [] ] ])) :=
  ((C3_call_classification fsC3 devC3 "GET/netRemote.sys.info.friendlyName"
      none rfl 200
      (.mk "fsapiResponse" [] none
        [ .mk "status" [] (some "FS_OK") []
        , .mk "value" [] none [ .mk "c8_array" [] (some "My Radio") [] ] ])
      rfl).2.2 (by decide) (by decide)).2.1 rfl

/- ### Claim C4 -/

/-- **C4, counterexample.**  The claim states that `unpack_xml` returns
the empty string when the located element has no text.  It is false:
`str(element.text)` renders the missing text (`None`) as the string
`"None"`.  Concretely, unpacking `b` from `<a><b/></a>` yields the
string `"None"`, not `""`. -/
theorem C4_counterexample :
    unpack_xml (some (.mk "a" [] none [ .mk "b" [] none [] ])) "b"
      = .ok (some "None")
    ∧ unpack_xml (some (.mk "a" [] none [ .mk "b" [] none [] ])) "b"
      ≠ .ok (some "") :=
  ⟨rfl, fun h => by
    rw [show unpack_xml (some (.mk "a" [] none [ .mk "b" [] none [] ])) "b"
        = .ok (some "None") from rfl] at h
    exact absurd (Option.some.inj (Except.ok.inj h)) (by decide)⟩

/-- **C4, amended.**  `unpack_xml(root, path)` returns absent when `root`
is absent or when the path locates no element; when the path locates an
element, it returns the `str()` rendering of that element's text — the
text itself when present, and the string `"None"` (not the empty string)
when the element has no text. -/
theorem C4_amended :
    (∀ key, unpack_xml none key = .ok none)
    ∧ (∀ root key, elemFind root key = .ok none →
        unpack_xml (some root) key = .ok none)
    ∧ (∀ root key e, elemTruthy root = true → elemFind root key = .ok (some e) →
        unpack_xml (some root) key = .ok (some (pyStrOpt e.text))) := by
  refine ⟨fun key => rfl, fun root key h => ?_, fun root key e ht h => ?_⟩
  · by_cases ht : elemTruthy root
    · simp [unpack_xml, ht, h]
    · simp [unpack_xml, ht]
  · simp [unpack_xml, ht, h]

/-- **C4, witness.**  Concrete instantiations of `C4_amended`: a present
nested element's text is returned, and a missing segment yields absent. -/
theorem C4_witness :
    unpack_xml (some (.mk "value" [] none
        [ .mk "c8_array" [] (some "My Radio") [] ])) "c8_array"
      = .ok (some "My Radio")
    ∧ unpack_xml (some (.mk "value" [] none
        [ .mk "c8_array" [] (some "My Radio") [] ])) "u8" = .ok none :=
  ⟨C4_amended.2.2 (.mk "value" [] none
      [ .mk "c8_array" [] (some "My Radio") [] ]) "c8_array"
      (.mk "c8_array" [] (some "My Radio") []) rfl rfl,
   C4_amended.2.1 (.mk "value" [] none
      [ .mk "c8_array" [] (some "My Radio") [] ]) "u8" rfl⟩

/- ### Claim C5 -/

/-- **C5, counterexample.**  The claim states that `unpack_xml` returns a
value and never raises, for every root and every path string, malformed
ones included.  It is false: for a present root that has children, a
path beginning with `/` reaches `root.find`, and
`xml.etree.ElementPath` raises `SyntaxError("cannot use absolute path
on element")`. -/
theorem C5_counterexample :
    unpack_xml (some (.mk "fsapiResponse" [] none
        [ .mk "status" [] (some "FS_OK") [] ])) "/status"
      = .error .elementPathError := rfl

/-- **C5, amended.**  `unpack_xml` never raises when the root is absent,
or when the root is present but has no child elements (Python falsiness
of an `Element` short-circuits before `find` is reached); only a present
root with children hands the (possibly malformed) path to the XML
library's `find`, which can raise. -/
theorem C5_amended :
    (∀ key, unpack_xml none key = .ok none)
    ∧ (∀ root key, elemTruthy root = false →
        unpack_xml (some root) key = .ok none) := by
  refine ⟨fun key => rfl, fun root key h => ?_⟩
  simp [unpack_xml, h]

/-- **C5, witness.**  Concrete instantiations of `C5_amended` on the
malformed path of the counterexample: with an absent root, and with a
childless root, no error is raised. -/
theorem C5_witness :
    unpack_xml none "/status" = .ok none
    ∧ unpack_xml (some (.mk "leaf" [] (some "x") [])) "/status" = .ok none :=
  ⟨C5_amended.1 "/status",
   C5_amended.2 (.mk "leaf" [] (some "x") []) "/status" rfl⟩

/- ### Claim C6 -/

/-- **C6.**  For the `int8` accessor (`handle_int`, field `value/u8`) and
the `int32` accessor (`handle_long`, field `value/u32`): when the field
is missing from the GET response the accessor returns absent, and when
the field's text parses to an integer `n` the accessor returns absent if
`n = 0` and `n` itself otherwise (`int(val) or None` swallows zero). -/
theorem C6_int_accessors (fs : FS) (dev : Device) (item : String)
    (doc : Option Element) (hdoc : handle_get fs dev item = .ok doc) :
    (unpack_xml doc "value/u8" = .ok none → handle_int fs dev item = .ok none)
    ∧ (∀ v n, unpack_xml doc "value/u8" = .ok (some v) → pyInt v = some n →
        handle_int fs dev item = .ok (if n = 0 then none else some n))
    ∧ (unpack_xml doc "value/u32" = .ok none →
        handle_long fs dev item = .ok none)
    ∧ (∀ v n, unpack_xml doc "value/u32" = .ok (some v) → pyInt v = some n →
        handle_long fs dev item = .ok (if n = 0 then none else some n)) := by
  refine ⟨fun h8 => ?_, fun v n h8 hn => ?_, fun h32 => ?_, fun v n h32 hn => ?_⟩
  · simp [handle_int, hdoc, h8]
  · simp [handle_int, hdoc, h8, hn]
  · simp [handle_long, hdoc, h32]
  · simp [handle_long, hdoc, h32, hn]

/-- A device whose `GET` responses carry `value/u8 = "0"` and
`value/u32 = "42"`, to witness `C6_int_accessors`. -/
def devC6 : Device := fun url _ =>
  if url = "http://ep/GET/netRemote.test.item" then
    .response 200 (.mk "fsapiResponse" [] none
      [ .mk "status" [] (some "FS_OK") []
      , .mk "value" [] none
          [ .mk "u8" [] (some "0") [], .mk "u32" [] (some "42") [] ] ])
  else
    .response 404 (.mk "fsapiResponse" [] none [])

def fsC6 : FS := { pin := "1234", sid := some "S6", webfsapi := some "http://ep" }

/-- **C6, witness.**  Against `devC6`, the `u8` field reads `"0"`, so
`handle_int` returns absent (zero-as-absent), while the `u32` field
reads `"42"`, so `handle_long` returns `42`. -/
theorem C6_witness :
    handle_int fsC6 devC6 "netRemote.test.item" = .ok none
    ∧ handle_long fsC6 devC6 "netRemote.test.item" = .ok (some 42) :=
  ⟨(C6_int_accessors fsC6 devC6 "netRemote.test.item" _ rfl).2.1 "0" 0 rfl rfl,
   (C6_int_accessors fsC6 devC6 "netRemote.test.item" _ rfl).2.2.2 "42" 42
      rfl rfl⟩

/- ### Claim C7 -/

/-- `int(val) or None` means the `int8` accessor can never produce the
integer `0`: a zero parse is converted to absent. -/
theorem handle_int_ne_zero (fs : FS) (dev : Device) (item : String) (n : Int)
    (h : handle_int fs dev item = .ok (some n)) : n ≠ 0 := by
  unfold handle_int at h
  split at h
  · exact absurd h (by simp)
  · split at h
    · exact absurd h (by simp)
    · exact absurd h (by simp)
    · split at h
      · exact absurd h (by simp)
      · rename_i m _
        by_cases hm : m = 0
        · subst hm
          simp at h
        · simp only [hm, if_false] at h
          have := Option.some.inj (Except.ok.inj h)
          rw [← this]
          exact hm

/-- A `PLAY_STATES` lookup at an integer other than 0, 1, 2 and 3 is
absent. -/
theorem playStatesGet_eq_none (m : Int) (h0 : m ≠ 0) (h1 : m ≠ 1)
    (h2 : m ≠ 2) (h3 : m ≠ 3) : playStatesGet (some m) = none := by
  have hfind : PLAY_STATES.find? (fun p => p.1 == m) = none := by
    rw [List.find?_eq_none]
    intro x hx
    fin_cases hx <;> simp <;> omega
  simp [playStatesGet, hfind]

/-- A concrete playback-status device reporting the raw integer `0`
(`<u8>0</u8>` under `FS_OK`). -/
def devC7 : Device := fun url _ =>
  if url = "http://ep/GET/netRemote.play.status" then
    .response 200 (.mk "fsapiResponse" [] none
      [ .mk "status" [] (some "FS_OK") []
      , .mk "value" [] none [ .mk "u8" [] (some "0") [] ] ])
  else
    .response 404 (.mk "fsapiResponse" [] none [])

def fsC7 : FS := { pin := "1234", sid := some "S7", webfsapi := some "http://ep" }

/-- **C7, counterexample.**  The claim states that `play_status` maps the
raw playback integer `0` to `"stopped"`.  It is false: against a device
reporting raw status `0`, `play_status` returns absent, because
`handle_int` converts the parsed `0` to absent before the
`PLAY_STATES` lookup — even though the code's own table maps `0` to
`"stopped"`. -/
theorem C7_counterexample :
    play_status fsC7 devC7 = .ok none
    ∧ playStatesGet (some 0) = some "stopped" := ⟨rfl, rfl⟩

/-- **C7, amended.**  `play_status` maps raw `1` to `"unknown"`, `2` to
`"playing"` and `3` to `"paused"`, and returns absent when the integer
is absent or outside that set — **including the raw integer `0`**, which
the zero-swallowing `int8` accessor turns into absent before the lookup,
so `"stopped"` is never returned. -/
theorem C7_amended (fs : FS) (dev : Device) :
    (∀ st, handle_int fs dev "netRemote.play.status" = .ok st →
        play_status fs dev = .ok (playStatesGet st))
    ∧ (∀ doc v, handle_get fs dev "netRemote.play.status" = .ok doc →
        unpack_xml doc "value/u8" = .ok (some v) → pyInt v = some 0 →
        play_status fs dev = .ok none)
    ∧ (∀ r, play_status fs dev = .ok r → r ≠ some "stopped")
    ∧ playStatesGet (some 1) = some "unknown"
    ∧ playStatesGet (some 2) = some "playing"
    ∧ playStatesGet (some 3) = some "paused"
    ∧ playStatesGet none = none
    ∧ (∀ n : Int, n ≠ 0 → n ≠ 1 → n ≠ 2 → n ≠ 3 →
        playStatesGet (some n) = none) := by
  have hmain : ∀ st, handle_int fs dev "netRemote.play.status" = .ok st →
      play_status fs dev = .ok (playStatesGet st) := by
    intro st h
    simp [play_status, h]
  refine ⟨hmain, fun doc v hdoc hu hp => ?_, fun r h => ?_, rfl, rfl, rfl, rfl,
    playStatesGet_eq_none⟩
  · have h0 : handle_int fs dev "netRemote.play.status" = .ok none := by
      simp [handle_int, hdoc, hu, hp]
    simpa [playStatesGet] using hmain none h0
  · cases hi : handle_int fs dev "netRemote.play.status" with
    | error e =>
      unfold play_status at h
      rw [hi] at h
      exact absurd h (by simp)
    | ok st =>
      rw [hmain st hi] at h
      rw [← Except.ok.inj h]
      cases st with
      | none => simp [playStatesGet]
      | some m =>
        have hm : m ≠ 0 := handle_int_ne_zero fs dev _ m hi
        by_cases h1 : m = 1
        · subst h1; decide
        · by_cases h2 : m = 2
          · subst h2; decide
          · by_cases h3 : m = 3
            · subst h3; decide
            · simp [playStatesGet_eq_none m hm h1 h2 h3]

/-- A concrete playback-status device reporting raw integer `2`. -/
def devC7w : Device := fun url _ =>
  if url = "http://ep/GET/netRemote.play.status" then
    .response 200 (.mk "fsapiResponse" [] none
      [ .mk "status" [] (some "FS_OK") []
      , .mk "value" [] none [ .mk "u8" [] (some "2") [] ] ])
  else
    .response 404 (.mk "fsapiResponse" [] none [])

/-- **C7, witness.**  Against a device reporting raw status `2`,
`play_status` returns `"playing"`. -/
theorem C7_witness :
    play_status fsC7 devC7w = .ok (some "playing") :=
  (C7_amended fsC7 devC7w).1 (some 2) rfl

/- ### Claim C8 -/

/-- A `field` element carrying a `name` attribute whose only child is a
`u32` element (no `u8`, no `c8_array`). -/
def fieldU32 : Element :=
  .mk "field" [("name", "streamRate")] none
    [ .mk "u32" [] (some "44100") [] ]

/-- **C8, counterexample.**  The claim states that a field records an
integer value whenever it has a `u8` **or a `u32`** child element.  It
is false: `handle_field` only consults `u8`; for a field whose only
child is `<u32>44100</u32>` it falls through to the `c8_array` text,
which is absent, so the recorded value is absent, not the integer
`44100`. -/
theorem C8_counterexample :
    handle_field fieldU32 = .ok ("streamRate", none)
    ∧ handle_field fieldU32 ≠ .ok ("streamRate", some (DataItem.i 44100)) :=
  ⟨rfl, fun h => by
    rw [show handle_field fieldU32 = .ok ("streamRate", none) from rfl] at h
    exact absurd (congrArg Prod.snd (Except.ok.inj h)) (by decide)⟩

/-- **C8, amended.**  For a `field` child with a `name` attribute, the
list protocol records the integer parsed from the `u8` child's text when
a `u8` child exists, and otherwise records the text of the `c8_array`
child (absent when that is missing too) — a `u32` child alone is *not*
read as an integer.  An item's `key` attribute, when present, is copied
into the record under the key `"key"`. -/
theorem C8_amended (field : Element) (id : String)
    (hname : attribGet field "name" = some id) :
    (∀ v n, unpack_xml (some field) "u8" = .ok (some v) → pyInt v = some n →
        handle_field field = .ok (id, some (DataItem.i n)))
    ∧ (∀ s, unpack_xml (some field) "u8" = .ok none →
        unpack_xml (some field) "c8_array" = .ok s →
        handle_field field = .ok (id, s.map DataItem.s))
    ∧ (∀ item k ret, attribGet item "key" = some k →
        handle_item item = .ok ret →
        dictGet? ret "key" = some (some (DataItem.s k))) := by
  have hc : unpack_xml (some field) "c8_array"
      = .ok (unpackCore (some field) "c8_array") := unpack_xml_ok _ _ rfl
  refine ⟨fun v n hu hn => ?_, fun s hu hc' => ?_,
    fun item k ret hk hret => ?_⟩
  · simp [handle_field, hname, hc, hu, hn]
  · simp [handle_field, hname, hc', hu]
  · unfold handle_item at hret
    split at hret
    · exact absurd hret (by simp)
    · split at hret
      · exact absurd hret (by simp)
      · split at hret
        · rename_i k' heq
          rw [hk] at heq
          obtain rfl : k = k' := Option.some.inj heq
          simp only [Except.ok.injEq] at hret
          rw [← hret]
          exact dictGet?_set_self _ "key" _
        · rename_i heq
          rw [hk] at heq
          exact absurd heq (by simp)

/-- A `field` element with a `u8` child, and an `item` element with a
`key` attribute, to witness `C8_amended`. -/
def fieldU8 : Element :=
  .mk "field" [("name", "streamable")] none [ .mk "u8" [] (some "1") [] ]

def itemKeyed : Element :=
  .mk "item" [("key", "2")] none
    [ .mk "field" [("name", "label")] none
        [ .mk "c8_array" [] (some "FM") [] ] ]

/-- **C8, witness.**  A `u8` field records the integer `1`; the record
built from an item with `key="2"` maps `"key"` to `"2"`. -/
theorem C8_witness :
    handle_field fieldU8 = .ok ("streamable", some (DataItem.i 1))
    ∧ dictGet? [("label", some (DataItem.s "FM")),
        ("key", some (DataItem.s "2"))] "key"
        = some (some (DataItem.s "2")) :=
  ⟨(C8_amended fieldU8 "streamable" rfl).1 "1" 1 rfl rfl,
   (C8_amended fieldU8 "streamable" rfl).2.2 itemKeyed "2"
      [("label", some (DataItem.s "FM")), ("key", some (DataItem.s "2"))]
      rfl rfl⟩

/- ### Claim C9 -/

/-- The pure value computed by the `mode` getter's scan: the `label` of
the *last* record whose `key` equals the target string, or `None` when
no record matches. -/
def modeScanSpec (records : List Record) (target : String) : Option DataItem :=
  records.foldl (fun acc r =>
    if dictGet? r "key" = some (some (DataItem.s target)) then
      (dictGet? r "label").getD none
    else acc) none

/-- When every record has a `"key"` entry and every matching record has a
`"label"` entry, the `mode` getter's loop runs without a `KeyError` and
computes `modeScanSpec`. -/
theorem modeFold_ok (target : String) (records : List Record)
    (acc : Option DataItem)
    (hk : ∀ r ∈ records, (dictGet? r "key").isSome = true)
    (hlab : ∀ r ∈ records,
        dictGet? r "key" = some (some (DataItem.s target)) →
        (dictGet? r "label").isSome = true) :
    records.foldlM (modeStep target) acc
      = .ok (records.foldl (fun acc r =>
          if dictGet? r "key" = some (some (DataItem.s target)) then
            (dictGet? r "label").getD none
          else acc) acc) := by
  induction records generalizing acc with
  | nil => rfl
  | cons r rs ih =>
    rw [List.foldlM_cons, List.foldl_cons]
    obtain ⟨kv, hkv⟩ :=
      Option.isSome_iff_exists.mp (hk r (List.mem_cons_self _ _))
    by_cases hmatch : kv = some (DataItem.s target)
    · have hcond : dictGet? r "key" = some (some (DataItem.s target)) := by
        rw [hkv, hmatch]
      obtain ⟨lv, hlv⟩ := Option.isSome_iff_exists.mp
        (hlab r (List.mem_cons_self _ _) hcond)
      have hstep : modeStep target acc r = .ok lv := by
        simp [modeStep, dictGetE, hkv, hmatch, hlv]
      rw [hstep]
      show rs.foldlM (modeStep target) lv = _
      have hstart : (if dictGet? r "key" = some (some (DataItem.s target)) then
          (dictGet? r "label").getD none else acc) = lv := by
        rw [if_pos hcond, hlv]
        rfl
      rw [hstart]
      exact ih lv (fun q hq => hk q (List.mem_cons_of_mem _ hq))
        (fun q hq => hlab q (List.mem_cons_of_mem _ hq))
    · have hstep : modeStep target acc r = .ok acc := by
        simp [modeStep, dictGetE, hkv, hmatch]
      rw [hstep]
      show rs.foldlM (modeStep target) acc = _
      have hstart : (if dictGet? r "key" = some (some (DataItem.s target)) then
          (dictGet? r "label").getD none else acc) = acc := by
        rw [if_neg]
        intro hcond
        rw [hkv] at hcond
        exact hmatch (Option.some.inj hcond)
      rw [hstart]
      exact ih acc (fun q hq => hk q (List.mem_cons_of_mem _ hq))
        (fun q hq => hlab q (List.mem_cons_of_mem _ hq))

/-- A device reporting current mode `2` whose valid-modes list contains a
single record with key `"1"` and label `"DAB"` — no key matches. -/
def devC9 : Device := fun url _ =>
  if url = "http://ep/GET/netRemote.sys.mode" then
    .response 200 (.mk "fsapiResponse" [] none
      [ .mk "status" [] (some "FS_OK") []
      , .mk "value" [] none [ .mk "u32" [] (some "2") [] ] ])
  else if url = "http://ep/LIST_GET_NEXT/netRemote.sys.caps.validModes/-1" then
    .response 200 (.mk "fsapiResponse" [] none
      [ .mk "status" [] (some "FS_OK") []
      , .mk "item" [("key", "1")] none
          [ .mk "field" [("name", "label")] none
              [ .mk "c8_array" [] (some "DAB") [] ] ] ])
  else
    .response 404 (.mk "fsapiResponse" [] none [])

def fsC9 : FS := { pin := "1234", sid := some "S9", webfsapi := some "http://ep" }

/-- **C9, counterexample.**  The claim states that the `mode` getter
returns absent when no record's key matches the current-mode integer.
It is false: the getter ends with `return str(mode)`, so with current
mode `2` and a modes list whose only record has key `"1"`, it returns
the *string* `"None"` — a present string, never an absent value (the
getter's type is `str`). -/
theorem C9_counterexample : mode_get fsC9 devC9 = .ok "None" := rfl

/-- **C9, amended.**  When the current-mode integer is absent the getter
returns the string `"None"`.  When it is an integer `m` and every
record of the modes list has a `"key"` entry (and matching records have
a `"label"`), the getter returns `str` of the label of the *last* record
whose key equals `str(m)`, and the string `"None"` — not absent — when
no record matches. -/
theorem C9_amended (fs : FS) (dev : Device) :
    (handle_long fs dev "netRemote.sys.mode" = .ok none →
        mode_get fs dev = .ok "None")
    ∧ (∀ m records,
        handle_long fs dev "netRemote.sys.mode" = .ok (some m) →
        handle_list fs dev "netRemote.sys.caps.validModes" = .ok records →
        (∀ r ∈ records, (dictGet? r "key").isSome = true) →
        (∀ r ∈ records,
            dictGet? r "key" = some (some (DataItem.s (toString m))) →
            (dictGet? r "label").isSome = true) →
        mode_get fs dev = .ok (pyStrValue (modeScanSpec records (toString m)))) := by
  constructor
  · intro h
    simp [mode_get, h, pyStrValue]
  · intro m records hm hl hk hlab
    simp [mode_get, hm, hl, modeFold_ok (toString m) records none hk hlab,
      modeScanSpec]

/-- A device reporting current mode `2` whose valid-modes list contains
the record `{key: "2", label: "FM"}`. -/
def devC9w : Device := fun url _ =>
  if url = "http://ep/GET/netRemote.sys.mode" then
    .response 200 (.mk "fsapiResponse" [] none
      [ .mk "status" [] (some "FS_OK") []
      , .mk "value" [] none [ .mk "u32" [] (some "2") [] ] ])
  else if url = "http://ep/LIST_GET_NEXT/netRemote.sys.caps.validModes/-1" then
    .response 200 (.mk "fsapiResponse" [] none
      [ .mk "status" [] (some "FS_OK") []
      , .mk "item" [("key", "2")] none
          [ .mk "field" [("name", "label")] none
              [ .mk "c8_array" [] (some "FM") [] ] ] ])
  else
    .response 404 (.mk "fsapiResponse" [] none [])

/-- **C9, witness.**  With current mode `2` and a modes list containing
`{key: "2", label: "FM"}`, the getter returns `"FM"`. -/
theorem C9_witness : mode_get fsC9 devC9w = .ok "FM" :=
  (C9_amended fsC9 devC9w).2 2
    [[("label", some (DataItem.s "FM")), ("key", some (DataItem.s "2"))]]
    rfl rfl (by decide) (by decide)

/- ### Claim C10 -/

/-- `call` hands back a parsed document only from its `FS_OK` branch, so
any document it returns unpacks `status` to `"FS_OK"`. -/
theorem call_ok_some_status (fs : FS) (dev : Device) (path : String)
    (extra : Option (List (String × DataItem))) (d : Element)
    (h : call fs dev path extra = .ok (some d)) :
    unpack_xml (some d) "status" = .ok (some "FS_OK") := by
  unfold call at h
  split at h
  · split at h
    · exact absurd h (by simp)
    · exact absurd h (by simp)
    · split at h
      · exact absurd h (by simp)
      · split at h
        · exact absurd h (by simp)
        · split at h
          · exact absurd h (by simp)
          · rename_i status heq
            split at h
            · exact absurd h (by simp)
            · split at h
              · rename_i hfsok
                obtain rfl : _ = d := Option.some.inj (Except.ok.inj h)
                rw [heq, hfsok]
              · exact absurd h (by simp)
  · exact absurd h (by simp)

/-- **C10.**  `handle_set` never returns `False`: when the underlying
`call` yields a document its status is necessarily `FS_OK` (so the
result is `True`), and when `call` yields absent the result is absent —
a non-`FS_OK` device status surfaces as absence, never as a `False`
result. -/
theorem C10_handle_set_never_false (fs : FS) (dev : Device) (item : String)
    (value : DataItem) (r : Option Bool)
    (h : handle_set fs dev item value = .ok r) : r ≠ some false := by
  unfold handle_set at h
  split at h
  · exact absurd h (by simp)
  · rename_i doc hcall
    split at h
    · exact absurd h (by simp)
    · obtain rfl : (none : Option Bool) = r := Except.ok.inj h
      simp
    · rename_i st hst
      cases doc with
      | none =>
        rw [show unpack_xml none "status" = .ok none from rfl] at hst
        exact absurd (Except.ok.inj hst) (by simp)
      | some dd =>
        have hfs := call_ok_some_status fs dev ("SET/" ++ item) _ dd hcall
        rw [hfs] at hst
        obtain rfl : "FS_OK" = st :=
          Option.some.inj (Except.ok.inj hst)
        obtain rfl : some ("FS_OK" == "FS_OK") = r := Except.ok.inj h
        decide

/-- A device acknowledging `SET/netRemote.play.control` with `FS_OK`, to
witness `C10_handle_set_never_false` on the spec's end-to-end `play()`
scenario. -/
def devC10 : Device := fun url _ =>
  if url = "http://ep/SET/netRemote.play.control" then
    .response 200 (.mk "fsapiResponse" [] none
      [ .mk "status" [] (some "FS_OK") [] ])
  else
    .response 404 (.mk "fsapiResponse" [] none [])

def fsC10 : FS := { pin := "1234", sid := some "S10", webfsapi := some "http://ep" }

/-- **C10, witness.**  Setting `netRemote.play.control` to `1` against an
`FS_OK`-acknowledging device returns `True`, which is not `False`. -/
theorem C10_witness :
    handle_set fsC10 devC10 "netRemote.play.control" (DataItem.i 1)
      = .ok (some true)
    ∧ (some true : Option Bool) ≠ some false :=
  ⟨rfl, C10_handle_set_never_false fsC10 devC10 "netRemote.play.control"
      (DataItem.i 1) (some true) rfl⟩

end FSAPI
